import Mathlib

/-!
Shallow embedding of the `tui-confirm-dialog` crate: the button-label
parser, the dialog state machine (`ConfirmDialogState::handle` and the
configuration mutators), and the width/geometry computations of the
renderers (`ConfirmDialog::render`, `PopupMessage::render`,
`helper::centered_rect_with_size`), together with theorems settling the
specification claims about them.
-/

/-- Rust strings are modelled at the character level as lists of `Char`.
The byte-offset arithmetic of the source is recovered through `utf8Size`. -/
abbrev RStr := List Char

/-- Number of bytes of the UTF-8 encoding of one character, as used by
Rust `str` byte indexing and `str::len`. -/
def utf8Size (c : Char) : Nat :=
  if c.toNat < 0x80 then 1
  else if c.toNat < 0x800 then 2
  else if c.toNat < 0x10000 then 3
  else 4

/-- Byte length of a string (Rust `str::len`). -/
def byteLen (s : RStr) : Nat := (s.map utf8Size).sum

/-- Model of the regex word class `\w` (Unicode `\p{Word}`) restricted to
the Basic Latin and Latin-1 blocks, which cover every character this
development evaluates it on: ASCII alphanumerics, the underscore, and the
Latin-1 letters `À`..`ÿ` (excluding `×` and `÷`). -/
def isWordChar (c : Char) : Bool :=
  c.isAlphanum || c == '_' ||
    (0xC0 ≤ c.toNat && c.toNat ≤ 0xFF && c.toNat != 0xD7 && c.toNat != 0xF7)

/-- Whether the regex `(\(\w\))` matches at the start of the character
sequence. -/
def parenWordAtStart : RStr → Bool
  | '(' :: w :: ')' :: _ => isWordChar w
  | _ => false

/-- Leftmost match of `BUTTON_LABEL_RE = (\(\w\))` over the string,
returning the byte offset of the match start, as `Regex::find` does
(`off` accumulates the byte offset of the current scan position). -/
def findParenWord : RStr → Nat → Option Nat
  | [], _ => none
  | c :: rest, off =>
    if parenWordAtStart (c :: rest) then some off
    else findParenWord rest (off + utf8Size c)

/-- Rust `char::to_ascii_lowercase`: lowercases ASCII uppercase letters
only, leaving every other character (including accented capitals)
unchanged. -/
def toAsciiLower (c : Char) : Char :=
  if 65 ≤ c.toNat && c.toNat ≤ 90 then Char.ofNat (c.toNat + 32) else c

/-- Rust byte slice `&value[1..]`: drops the first byte. It is only valid
when byte offset 1 is a character boundary, i.e. when the first character
is a single UTF-8 byte; otherwise the slicing panics (`none`). -/
def byteSliceFrom1 : RStr → Option RStr
  | [] => none
  | c :: rest => if utf8Size c = 1 then some rest else none

/-- `ButtonLabel`: display text plus the single activation character.
The optional visual `style` override is carried as `Option Unit` since no
specification claim depends on the style value itself. -/
structure ButtonLabel where
  label : RStr
  control : Char
  style : Option Unit := none
deriving DecidableEq, Repr

/-- Result of `TryFrom<&str> for ButtonLabel`: success, the
`TryFromSliceError` (the spec's `EmptyLabelError`), or a Rust panic
(an `unwrap` of `None` or a byte slice at a non-boundary). -/
inductive ParseResult where
  | ok (b : ButtonLabel)
  | err
  | panicked
deriving DecidableEq, Repr

/-- `TryFrom<&str> for ButtonLabel::try_from`, translated line by line:
empty input errors; a leftmost `(\w)` regex match yields the verbatim
label with control `value.chars().nth(match_byte_start + 1)` (a byte
offset used as a character index) ASCII-lowercased, panicking when that
index is out of range; otherwise the fallback takes the first character,
ASCII-lowercases it for the control, and builds `"({char})" + &value[1..]`
(a byte slice, panicking when the first character is multi-byte). -/
def buttonLabelTryFrom (value : RStr) : ParseResult :=
  if value = [] then .err
  else
    match findParenWord value 0 with
    | some start =>
      match value.get? (start + 1) with
      | some controlChar => .ok ⟨value, toAsciiLower controlChar, none⟩
      | none => .panicked
    | none =>
      match value with
      | [] => .panicked
      | c :: _ =>
        match byteSliceFrom1 value with
        | some rest => .ok ⟨'(' :: c :: ')' :: rest, toAsciiLower c, none⟩
        | none => .panicked

/-- `ButtonLabel::len`: the byte length of the label plus 2. -/
def ButtonLabel.len (b : ButtonLabel) : Nat := byteLen b.label + 2

/-- Listener message type `Listener = (u16, Option<bool>)`; the `u16`
dialog id is carried as a `Nat`. -/
abbrev ListenerMsg := Nat × Option Bool

/-- Key codes distinguished by `ConfirmDialogState::handle`; every other
`crossterm` key code falls into `other`. -/
inductive KeyCode where
  | esc
  | chr (c : Char)
  | right
  | left
  | enter
  | other
deriving DecidableEq, Repr

/-- `crossterm` key-event kinds: `Press`, `Release`, `Repeat`. -/
inductive KeyEventKind where
  | press
  | release
  | rep
deriving DecidableEq, Repr

/-- A `crossterm` `KeyEvent`, restricted to the fields `handle` reads. -/
structure KeyEvent where
  code : KeyCode
  kind : KeyEventKind
deriving DecidableEq, Repr

/-- `ConfirmDialogState`. The `title` is modelled by its text and the rich
`text` by the list of display widths of its lines (the only attributes the
embedded computations read: line count and per-line width). The `listener`
field records whether a sender is attached (`Option<Sender<Listener>>`
being some or none); the channel itself is modelled by returning the list
of messages each operation sends. -/
structure ConfirmDialogState where
  id : Nat
  title : RStr
  text : List Nat
  modal : Bool
  opened : Bool
  yes_selected : Bool
  yes_button : ButtonLabel
  no_button : Option ButtonLabel
  listener : Bool
deriving DecidableEq, Repr

/-- `ConfirmDialogState::new(id, title, text)`: yes/no buttons `Yes`/`No`
with controls `y`/`n`, non-modal, closed, yes selected, no listener. -/
def ConfirmDialogState.new (id : Nat) (title : RStr) (text : List Nat) :
    ConfirmDialogState where
  id := id
  title := title
  text := text
  modal := false
  opened := false
  yes_selected := true
  yes_button := ⟨['Y', 'e', 's'], 'y', none⟩
  no_button := some ⟨['N', 'o'], 'n', none⟩
  listener := false

/-- `ConfirmDialogState::send_close_message`: sends `(id, result)` when a
listener is attached, nothing otherwise (a failed send is swallowed). The
return value is the list of messages put on the channel. -/
def sendCloseMessage (s : ConfirmDialogState) (result : Option Bool) :
    List ListenerMsg :=
  if s.listener then [(s.id, result)] else []

/-- `ConfirmDialogState::handle`, translated arm by arm. The result is
the state after the call, the messages sent to the listener during the
call, and the returned `bool` (whether the event was consumed). -/
def handle (s : ConfirmDialogState) (event : KeyEvent) :
    ConfirmDialogState × List ListenerMsg × Bool :=
  match event.kind with
  | .press =>
    match event.code with
    | .esc =>
      if !s.modal then
        ({ s with opened := false }, sendCloseMessage s none, true)
      else
        (s, [], false)
    | .chr c =>
      if c = s.yes_button.control then
        ({ s with opened := false }, sendCloseMessage s (some true), true)
      else
        match s.no_button with
        | some nb =>
          if c = nb.control then
            ({ s with opened := false }, sendCloseMessage s (some false), true)
          else
            (s, [], s.modal)
        | none => (s, [], s.modal)
    | .right =>
      (match s.no_button with
       | some _ => if s.yes_selected then { s with yes_selected := false } else s
       | none => s, [], s.modal)
    | .left =>
      (match s.no_button with
       | some _ => if !s.yes_selected then { s with yes_selected := true } else s
       | none => s, [], s.modal)
    | .enter =>
      if s.yes_selected then
        ({ s with opened := false }, sendCloseMessage s (some true), true)
      else
        ({ s with opened := false }, sendCloseMessage s (some false), true)
    | .other => (s, [], s.modal)
  | _ => (s, [], false)

/-- `ConfirmDialogState::open`. Each mutator is embedded in the same
effectful shape as `handle` — resulting state paired with the messages it
sends on the listener channel — so that absence of notifications is a
stated fact about the operation, not a modelling convention. -/
def openDialog (s : ConfirmDialogState) : ConfirmDialogState × List ListenerMsg :=
  ({ s with opened := true }, [])

/-- `ConfirmDialogState::close`. -/
def closeDialog (s : ConfirmDialogState) : ConfirmDialogState × List ListenerMsg :=
  ({ s with opened := false }, [])

/-- `ConfirmDialogState::modal`. -/
def setModal (s : ConfirmDialogState) (value : Bool) :
    ConfirmDialogState × List ListenerMsg :=
  ({ s with modal := value }, [])

/-- `ConfirmDialogState::with_title`. -/
def with_title (s : ConfirmDialogState) (title : RStr) :
    ConfirmDialogState × List ListenerMsg :=
  ({ s with title := title }, [])

/-- `ConfirmDialogState::with_text`. -/
def with_text (s : ConfirmDialogState) (text : List Nat) :
    ConfirmDialogState × List ListenerMsg :=
  ({ s with text := text }, [])

/-- `ConfirmDialogState::with_listener`. -/
def with_listener (s : ConfirmDialogState) (l : Bool) :
    ConfirmDialogState × List ListenerMsg :=
  ({ s with listener := l }, [])

/-- `ConfirmDialogState::with_yes_button`. -/
def with_yes_button (s : ConfirmDialogState) (b : ButtonLabel) :
    ConfirmDialogState × List ListenerMsg :=
  ({ s with yes_button := b }, [])

/-- `ConfirmDialogState::with_no_button`. -/
def with_no_button (s : ConfirmDialogState) (b : ButtonLabel) :
    ConfirmDialogState × List ListenerMsg :=
  ({ s with no_button := some b }, [])

/-- `ConfirmDialogState::without_no_button`. -/
def without_no_button (s : ConfirmDialogState) :
    ConfirmDialogState × List ListenerMsg :=
  ({ s with no_button := none }, [])

/-- `ConfirmDialogState::with_yes_button_selected`. -/
def with_yes_button_selected (s : ConfirmDialogState) (selected : Bool) :
    ConfirmDialogState × List ListenerMsg :=
  ({ s with yes_selected := selected }, [])

/-- `ConfirmDialogState::is_opened`. -/
def is_opened (s : ConfirmDialogState) : Bool := s.opened

/-- Truncation to `u16`, modelling Rust's `as u16` casts and the wrapping
of `u16` arithmetic. -/
def u16 (n : Nat) : Nat := n % 65536

/-- `ratatui` `Rect { x, y, width, height }` with `u16` fields as `Nat`
(`ratatui` maintains `x + width ≤ u16::MAX` and `y + height ≤ u16::MAX`,
so none of the embedded arithmetic on rectangles can wrap). -/
structure Rect where
  x : Nat
  y : Nat
  width : Nat
  height : Nat
deriving DecidableEq, Repr

/-- Model of the external `ratatui` `Layout::split` for the
three-constraint pattern `[Max m, Length len, Max m]` used by
`centered_rect_with_size`, under the caller-established invariant
`m + len ≤ total`: the first segment takes `m` cells, the middle segment
takes `len` cells starting at offset `m`, and the last segment absorbs
the remainder. The returned pair is the (position, size) of the middle
segment along the split axis. -/
def splitMaxLenMax (origin total m len : Nat) : Nat × Nat :=
  let _ := total
  (origin + m, len)

/-- `helper::centered_rect_with_size(width, height, r)`: clamps the
requested size to the available area, computes the remaining space per
axis (`saturating_sub` is `Nat` subtraction), and takes the middle
segment of a `[Max remaining/2, Length size, Max remaining/2]` split on
each axis. -/
def centered_rect_with_size (width height : Nat) (r : Rect) : Rect :=
  let width := min width r.width
  let height := min height r.height
  let remaining_width := r.width - width
  let remaining_height := r.height - height
  let v := splitMaxLenMax r.y r.height (remaining_height / 2) height
  let h := splitMaxLenMax r.x r.width (remaining_width / 2) width
  ⟨h.1, v.1, h.2, v.2⟩

/-- Width of the longest line: `lines.iter().max_by(|a, b|
a.width().cmp(&b.width()))` mapped to its width, `none` when there are no
lines. -/
def maxLineWidth : List Nat → Option Nat
  | [] => none
  | w :: ws => some (ws.foldl max w)

/-- Renderer constant `buttons_padding = 2`. -/
def buttons_padding : Nat := 2

/-- Renderer constant `horizontal_padding = 2`. -/
def horizontal_padding : Nat := 2

/-- Renderer constant `vertical_padding = 2`. -/
def vertical_padding : Nat := 2

/-- `ConfirmDialog::render`: `yes_button_size = (state.yes_button.len() +
buttons_padding as usize) as u16`. -/
def yesButtonSize (s : ConfirmDialogState) : Nat :=
  u16 (s.yes_button.len + buttons_padding)

/-- `ConfirmDialog::render`: `no_button_size`, `0` when there is no
no-button, else `(no_button.len() + buttons_padding as usize) as u16`. -/
def noButtonSize (s : ConfirmDialogState) : Nat :=
  match s.no_button with
  | some nb => u16 (nb.len + buttons_padding)
  | none => 0

/-- `ConfirmDialog::render`: `min_width = ((yes_button_size +
no_button_size) + horizontal_padding * 2) as u16` (u16 arithmetic). -/
def minWidth (s : ConfirmDialogState) : Nat :=
  u16 (u16 (yesButtonSize s + noButtonSize s) + horizontal_padding * 2)

/-- `ConfirmDialog::render`: the final dialog width — the longest line
width plus `horizontal_padding * 2` (or `min_width` when the text has no
lines), then `.max(min_width).max(40)`. -/
def dialogWidth (s : ConfirmDialogState) : Nat :=
  let base :=
    match maxLineWidth s.text with
    | some w => u16 (w + horizontal_padding * 2)
    | none => minWidth s
  max (max base (minWidth s)) 40

/-- `ConfirmDialog::render`: the button-row centering margin `c =
(main_layout[1].width - (total button width)) / 2`, an unchecked `u16`
subtraction that panics (`none`) when the row is narrower than the
buttons. -/
def buttonRowMargin (rowWidth buttonsWidth : Nat) : Option Nat :=
  if buttonsWidth ≤ rowWidth then some ((rowWidth - buttonsWidth) / 2)
  else none

/-- `PopupMessage::render` width computation: the longest message line
width plus `horizontal_padding + 2`, `.unwrap()`-ed — a panic (`none`)
when the message has no lines — cast to `u16`, then rounded up to even
with a `saturating_add(1)`. -/
def popupMessageWidth (lineWidths : List Nat) (hpad : Nat) : Option Nat :=
  match maxLineWidth lineWidths with
  | none => none
  | some w =>
    let w0 := u16 (w + hpad + 2)
    some (if w0 % 2 = 1 then min (w0 + 1) 65535 else w0)

/-- The default `Yes` button (`ButtonLabel::new("Yes", 'y')`). -/
def yesBtn : ButtonLabel := ⟨['Y', 'e', 's'], 'y', none⟩

/-- The default `No` button (`ButtonLabel::new("No", 'n')`). -/
def noBtn : ButtonLabel := ⟨['N', 'o'], 'n', none⟩

/-- A concrete open, non-modal dialog with both default buttons, a
listener attached and empty text, used to instantiate the theorems. -/
def sampleOpen : ConfirmDialogState where
  id := 7
  title := []
  text := []
  modal := false
  opened := true
  yes_selected := true
  yes_button := yesBtn
  no_button := some noBtn
  listener := true

/-- The same dialog with the no-button removed and `yes_selected` forced
to `false` (reachable through `with_yes_button_selected false` followed by
`without_no_button`). -/
def singleNoSel : ConfirmDialogState :=
  { sampleOpen with no_button := none, yes_selected := false }

/-- The sample dialog in the closed state. -/
def closedState : ConfirmDialogState := { sampleOpen with opened := false }

/-- C1: while the dialog is open, a key-press of the character equal to
`yes_button.control` closes the dialog, notifies the listener with
`Some(true)` and consumes the event; a key-press of the character equal
to `no_button.control`, when a no-button is present, closes the dialog,
notifies `Some(false)` and consumes the event; and when both controls
match the same pressed character the yes-button check takes priority. -/
theorem handle_yes_no_controls (s : ConfirmDialogState) (c : Char)
    (ho : s.opened = true) (hl : s.listener = true) :
    (c = s.yes_button.control →
      handle s ⟨.chr c, .press⟩ =
        ({ s with opened := false }, [(s.id, some true)], true)) ∧
    (∀ nb : ButtonLabel, s.no_button = some nb → c = nb.control →
      c ≠ s.yes_button.control →
      handle s ⟨.chr c, .press⟩ =
        ({ s with opened := false }, [(s.id, some false)], true)) ∧
    (∀ nb : ButtonLabel, s.no_button = some nb → c = s.yes_button.control →
      c = nb.control →
      handle s ⟨.chr c, .press⟩ =
        ({ s with opened := false }, [(s.id, some true)], true)) := by
  refine ⟨fun hy => ?_, fun nb hnb hc hne => ?_, fun nb hnb hy _ => ?_⟩
  · simp [handle, sendCloseMessage, hl, hy]
  · subst hc
    simp [handle, sendCloseMessage, hl, hnb, hne]
  · simp [handle, sendCloseMessage, hl, hy]

/-- Witness for C1: pressing `n` on the concrete open dialog closes it,
sends `(7, Some(false))` and consumes the event. -/
theorem handle_yes_no_controls_witness :
    handle sampleOpen ⟨.chr 'n', .press⟩ =
      ({ sampleOpen with opened := false }, [(7, some false)], true) :=
  (handle_yes_no_controls sampleOpen 'n' rfl rfl).2.1 noBtn rfl rfl (by decide)

/-- C5: evaluation of the parser at the inputs deciding the claim. The
test-suite input `"S(ì)"` parses as the claim says (control `ì`, label
verbatim), but the character-grammar rule fails as soon as a non-ASCII
character precedes the parentheses: the code reads the control with
`value.chars().nth(result.start() + 1)`, a regex byte offset used as a
character index, so `"Sì(m)"` yields control `')'` instead of `'m'`, and
on `"àà(b)"` the index falls past the end of the string and the
`.unwrap()` panics. -/
theorem parser_byte_offset_divergence :
    buttonLabelTryFrom ['S', '(', 'ì', ')'] =
      .ok ⟨['S', '(', 'ì', ')'], 'ì', none⟩ ∧
    buttonLabelTryFrom ['S', 'ì', '(', 'm', ')'] =
      .ok ⟨['S', 'ì', '(', 'm', ')'], ')', none⟩ ∧
    buttonLabelTryFrom ['à', 'à', '(', 'b', ')'] = .panicked := by
  refine ⟨by decide, by decide, by decide⟩

/-- C6: evaluation of the parser on the empty string, the documented
ASCII fallback, and the input deciding the claim: the fallback builds the
rewritten label with the byte slice `&value[1..]`, which panics whenever
the first character is multi-byte, so parsing the non-empty
no-parentheses input `"ì"` does not succeed — it panics instead of
producing label `"(ì)"`. -/
theorem parser_empty_and_fallback :
    buttonLabelTryFrom [] = .err ∧
    buttonLabelTryFrom ['N', 'o'] = .ok ⟨['(', 'N', ')', 'o'], 'n', none⟩ ∧
    buttonLabelTryFrom ['N'] = .ok ⟨['(', 'N', ')'], 'n', none⟩ ∧
    buttonLabelTryFrom ['ì'] = .panicked := by
  refine ⟨by decide, by decide, by decide, by decide⟩

/-- C2 counterexample: on the concrete open modal dialog, an Esc
key-press leaves the state unchanged and emits nothing, but `handle`
returns `false` — the event is reported as not consumed, contradicting
the claim that it is still considered consumed. -/
theorem handle_esc_modal_returns_false :
    handle { sampleOpen with modal := true } ⟨.esc, .press⟩ =
      ({ sampleOpen with modal := true }, [], false) ∧
    (handle { sampleOpen with modal := true } ⟨.esc, .press⟩).2.2 ≠ true := by
  refine ⟨by decide, by decide⟩

/-- C2 amended: an open dismissible dialog handling an Esc key-press
closes, notifies the listener with `None` and consumes the event; an open
modal dialog handling Esc does not close, emits nothing, and `handle`
returns `false` (the event is reported as not consumed). -/
theorem handle_esc_dismiss_modal (s : ConfirmDialogState)
    (ho : s.opened = true) (hl : s.listener = true) :
    (s.modal = false →
      handle s ⟨.esc, .press⟩ =
        ({ s with opened := false }, [(s.id, none)], true)) ∧
    (s.modal = true → handle s ⟨.esc, .press⟩ = (s, [], false)) := by
  refine ⟨fun hm => ?_, fun hm => ?_⟩ <;> simp [handle, sendCloseMessage, hl, hm]

/-- Witness for C2: Esc on the concrete dismissible dialog closes it and
sends `(7, None)`; Esc on its modal variant is the no-op returning
`false`. -/
theorem handle_esc_dismiss_modal_witness :
    handle sampleOpen ⟨.esc, .press⟩ =
      ({ sampleOpen with opened := false }, [(7, none)], true) ∧
    handle { sampleOpen with modal := true } ⟨.esc, .press⟩ =
      ({ sampleOpen with modal := true }, [], false) :=
  ⟨(handle_esc_dismiss_modal sampleOpen rfl rfl).1 rfl,
   (handle_esc_dismiss_modal { sampleOpen with modal := true } rfl rfl).2 rfl⟩

/-- C3 counterexample: a concrete open dialog without a no-button whose
`yes_selected` flag was configured to `false` (via
`with_yes_button_selected(false)` then `without_no_button`) notifies
`Some(false)` on Enter, not `Some(true)`. -/
theorem handle_enter_single_button_counterexample :
    (handle singleNoSel ⟨.enter, .press⟩).2.1 = [(7, some false)] ∧
    (handle singleNoSel ⟨.enter, .press⟩).2.1 ≠ [(7, some true)] := by
  refine ⟨by decide, by decide⟩

/-- C3 amended: Enter on an open dialog closes it and notifies the
listener with `Some(yes_selected)`; when no no-button is present,
Left/Right key-presses never change `yes_selected` (so a dialog whose
`yes_selected` was never explicitly configured to `false` always emits
`Some(true)`), but the raw `yes_selected` flag — settable through
`with_yes_button_selected` even without a no-button — is what is sent. -/
theorem handle_enter_yes_selected (s : ConfirmDialogState)
    (hl : s.listener = true) :
    handle s ⟨.enter, .press⟩ =
      ({ s with opened := false }, [(s.id, some s.yes_selected)], true) ∧
    (s.no_button = none →
      (handle s ⟨.left, .press⟩).1.yes_selected = s.yes_selected ∧
      (handle s ⟨.right, .press⟩).1.yes_selected = s.yes_selected) := by
  constructor
  · cases hs : s.yes_selected <;> simp [handle, sendCloseMessage, hl, hs]
  · intro hnb
    constructor <;> simp [handle, hnb]

/-- Witness for C3: Enter on the concrete no-no-button dialog with
`yes_selected = false` emits `(7, Some(false))`, and Left leaves its
`yes_selected` unchanged. -/
theorem handle_enter_yes_selected_witness :
    handle singleNoSel ⟨.enter, .press⟩ =
      ({ singleNoSel with opened := false }, [(7, some false)], true) ∧
    (handle singleNoSel ⟨.left, .press⟩).1.yes_selected =
      singleNoSel.yes_selected :=
  ⟨(handle_enter_yes_selected singleNoSel rfl).1,
   ((handle_enter_yes_selected singleNoSel rfl).2 rfl).1⟩

/-- C4 counterexample: the concrete closed dialog still processes key
events — pressing `y` sends a listener notification, and pressing Right
mutates `yes_selected`. -/
theorem closed_dialog_still_notifies :
    (handle closedState ⟨.chr 'y', .press⟩).2.1 ≠ [] ∧
    (handle closedState ⟨.right, .press⟩).1.yes_selected ≠
      closedState.yes_selected := by
  refine ⟨by decide, by decide⟩

/-- C4 amended: `handle` never reads the `opened` flag — on a closed
dialog every key event yields the same listener messages, the same
consumed flag and the same state fields as on the open dialog, except
that `opened` stays `false`; the caller is responsible for not routing
events to a closed dialog. -/
theorem handle_ignores_opened_flag (s : ConfirmDialogState) (e : KeyEvent) :
    handle { s with opened := false } e =
      ({ (handle { s with opened := true } e).1 with opened := false },
        (handle { s with opened := true } e).2.1,
        (handle { s with opened := true } e).2.2) := by
  rcases s with ⟨i, ti, te, m, o, ys, yb, nb, l⟩
  rcases e with ⟨code, kind⟩
  cases kind <;> cases code <;> cases m <;> cases ys <;> cases nb <;>
    simp [handle, sendCloseMessage] <;> split_ifs <;> rfl

/-- C7: for every requested width/height and available area (including
zero-sized ones), `centered_rect_with_size` clamps the requested size to
the area's dimensions, centers it with top/left margins of
`remaining / 2` (floor division), and never produces a rectangle
exceeding the area's bounds. -/
theorem centered_rect_with_size_spec (w h : Nat) (r : Rect) :
    (centered_rect_with_size w h r).width = min w r.width ∧
    (centered_rect_with_size w h r).height = min h r.height ∧
    (centered_rect_with_size w h r).x = r.x + (r.width - min w r.width) / 2 ∧
    (centered_rect_with_size w h r).y = r.y + (r.height - min h r.height) / 2 ∧
    r.x ≤ (centered_rect_with_size w h r).x ∧
    r.y ≤ (centered_rect_with_size w h r).y ∧
    (centered_rect_with_size w h r).x + (centered_rect_with_size w h r).width ≤
      r.x + r.width ∧
    (centered_rect_with_size w h r).y + (centered_rect_with_size w h r).height ≤
      r.y + r.height := by
  refine ⟨?_, ?_, ?_, ?_, ?_, ?_, ?_, ?_⟩ <;>
    simp only [centered_rect_with_size, splitMaxLenMax] <;> omega

/-- C8 counterexample: the on-screen footprint of the concrete `Yes`
button is `yesButtonSize = 7`, not its label length plus 2 cells
(`3 + 2 = 5`): `ButtonLabel::len` already adds 2 to the label length and
the renderer adds `buttons_padding = 2` on top. -/
theorem button_footprint_counterexample :
    yesButtonSize sampleOpen ≠ byteLen sampleOpen.yes_button.label + 2 := by
  decide

/-- C8 amended: each button's footprint is its label byte-length plus 4
cells (`ButtonLabel::len` adds 2 and the renderer adds the
`buttons_padding = 2`); the minimum dialog width is the sum of the
footprints plus 2 cells of horizontal padding per side; the final width
is the maximum of the longest line width plus 2 cells per side, the
minimum width, and the floor of 40 (the bounds keep every `u16` cast in
range). -/
theorem dialog_width_formulas (s : ConfirmDialogState) (nb : ButtonLabel)
    (mw : Nat) (hnb : s.no_button = some nb)
    (hmw : maxLineWidth s.text = some mw)
    (hy : byteLen s.yes_button.label + 4 < 65536)
    (hn : byteLen nb.label + 4 < 65536)
    (hs : byteLen s.yes_button.label + byteLen nb.label + 12 < 65536)
    (hw : mw + 4 < 65536) :
    yesButtonSize s = byteLen s.yes_button.label + 4 ∧
    noButtonSize s = byteLen nb.label + 4 ∧
    minWidth s = yesButtonSize s + noButtonSize s + 4 ∧
    dialogWidth s = max (max (mw + 4) (minWidth s)) 40 := by
  have h1 : yesButtonSize s = byteLen s.yes_button.label + 4 := by
    simp only [yesButtonSize, ButtonLabel.len, u16, buttons_padding]
    omega
  have h2 : noButtonSize s = byteLen nb.label + 4 := by
    simp only [noButtonSize, hnb, ButtonLabel.len, u16, buttons_padding]
    omega
  have h3 : minWidth s = yesButtonSize s + noButtonSize s + 4 := by
    simp only [minWidth, h1, h2, u16, horizontal_padding]
    omega
  have h4 : dialogWidth s = max (max (mw + 4) (minWidth s)) 40 := by
    have hb : (mw + horizontal_padding * 2) % 65536 = mw + 4 := by
      simp only [horizontal_padding]
      omega
    simp only [dialogWidth, hmw, u16, hb]
  exact ⟨h1, h2, h3, h4⟩

/-- Witness for C8: on a concrete dialog with line widths 10 and 36, the
footprints are 7 and 6, the minimum width 17, and the final width
`max (max 40 17) 40 = 40`. -/
theorem dialog_width_formulas_witness :
    yesButtonSize { sampleOpen with text := [10, 36] } =
      byteLen ({ sampleOpen with text := [10, 36] } :
        ConfirmDialogState).yes_button.label + 4 ∧
    dialogWidth { sampleOpen with text := [10, 36] } =
      max (max (36 + 4) (minWidth { sampleOpen with text := [10, 36] })) 40 := by
  have h := dialog_width_formulas { sampleOpen with text := [10, 36] } noBtn 36
    rfl (by decide) (by decide) (by decide) (by decide) (by decide)
  exact ⟨h.1, h.2.2.2⟩

/-- C9: rendering is not total — `PopupMessage::render` unwraps `None`
when the message has no lines (a panic on degenerate empty text), and
`ConfirmDialog::render` computes the button-row margin with an unchecked
`u16` subtraction that underflows when the target area is narrower than
the button row (here a width-10 area against the default 13-cell button
row of the concrete dialog). -/
theorem render_width_panics :
    popupMessageWidth [] (2 + 2) = none ∧
    buttonRowMargin
      (centered_rect_with_size (dialogWidth sampleOpen) 6 ⟨0, 0, 10, 20⟩).width
      (yesButtonSize sampleOpen + noButtonSize sampleOpen) = none := by
  refine ⟨rfl, by decide⟩

/-- C10: `close()` on a closed dialog and `open()` on an open one leave
`is_opened` unchanged; `open`, `close` and every configuration mutator
send no listener message; and `handle` sends messages only when it leaves
the dialog closed (notifications originate only from closing key
events). -/
theorem mutators_send_nothing (s : ConfirmDialogState) (b : ButtonLabel)
    (v : Bool) (t : RStr) (te : List Nat) :
    (s.opened = false → is_opened (closeDialog s).1 = is_opened s) ∧
    (s.opened = true → is_opened (openDialog s).1 = is_opened s) ∧
    (closeDialog s).2 = [] ∧
    (openDialog s).2 = [] ∧
    (setModal s v).2 = [] ∧
    (with_title s t).2 = [] ∧
    (with_text s te).2 = [] ∧
    (with_listener s v).2 = [] ∧
    (with_yes_button s b).2 = [] ∧
    (with_no_button s b).2 = [] ∧
    (without_no_button s).2 = [] ∧
    (with_yes_button_selected s v).2 = [] ∧
    (∀ e : KeyEvent, (handle s e).2.1 ≠ [] → (handle s e).1.opened = false) := by
  refine ⟨fun hc => ?_, fun hc => ?_, rfl, rfl, rfl, rfl, rfl, rfl, rfl, rfl,
    rfl, rfl, fun e he => ?_⟩
  · simp [is_opened, closeDialog, hc]
  · simp [is_opened, openDialog, hc]
  · rcases e with ⟨code, kind⟩
    cases kind
    · cases code
      · by_cases hm : s.modal <;> simp [handle, hm] at he ⊢
      · rename_i c
        by_cases hy : c = s.yes_button.control
        · simp [handle, hy]
        · cases hnb : s.no_button with
          | none => simp [handle, hy, hnb] at he
          | some nb =>
            by_cases hc : c = nb.control
            · simp only [handle, hnb]
              split_ifs <;> simp_all
            · simp [handle, hy, hnb, hc] at he
      · simp [handle] at he
      · simp [handle] at he
      · by_cases hs' : s.yes_selected <;> simp [handle, hs']
      · simp [handle] at he
    · simp [handle] at he
    · simp [handle] at he

/-- Witness for C10: on concrete states, `close` on the closed dialog
leaves `is_opened` unchanged, `open` emits nothing, and the Enter press
that produced the nonempty message list `[(7, some true)]` left the
dialog closed. -/
theorem mutators_send_nothing_witness :
    is_opened (closeDialog closedState).1 = is_opened closedState ∧
    (openDialog closedState).2 = [] ∧
    (handle sampleOpen ⟨.enter, .press⟩).1.opened = false := by
  have h := mutators_send_nothing closedState noBtn true [] []
  have h2 := mutators_send_nothing sampleOpen noBtn true [] []
  exact ⟨h.1 rfl, h.2.2.2.1,
    h2.2.2.2.2.2.2.2.2.2.2.2.2 ⟨.enter, .press⟩ (by decide)⟩
